import Mathlib

/-!
Formal model of the Task-Manager REST API core.

The definitions below are a shallow embedding of request
handlers (src/routes/tasks.js) and of the centralized error handler
(middleware/errorHandler.js).  JSON scalar values carried by request bodies
and stored tasks are modelled by `JsonVal`; the persisted collection
(db/tasks.json, accessed through readTasks/writeTasks) is modelled as a
`List Task` threaded through each handler, which returns the response
outcome together with the collection as left on disk.  JavaScript string
trimming (`.trim()`), truthiness (`x || ""`), and strict equality (`===`)
are modelled explicitly.  String length is the count of characters, which
agrees with JavaScript `.length` on the ASCII data used throughout.
-/

namespace TaskManager

/-- A JSON scalar value as it can appear in a parsed request body or in the
stored tasks file: a string, a number, a boolean, or null. -/
inductive JsonVal where
  | str (s : String)
  | num (n : Int)
  | bool (b : Bool)
  | null
  deriving DecidableEq

/-- JavaScript truthiness of a JSON scalar: empty string, 0, false and null
are falsy, everything else is truthy. -/
def truthy : JsonVal → Bool
  | .str s => decide (s ≠ "")
  | .num n => decide (n ≠ 0)
  | .bool b => b
  | .null => false

/-- Whether a JSON value is a boolean. -/
def isBool : JsonVal → Bool
  | .bool _ => true
  | _ => false

/-- A stored task object: the five fields written by the Create handler,
plus the optional `updatedAt` stamped by Update.  Field values are kept as
`JsonVal` because the Update merge copies request-body values into the
store unchecked. -/
structure Task where
  id : JsonVal
  title : JsonVal
  description : JsonVal
  completed : JsonVal
  createdAt : JsonVal
  updatedAt : Option JsonVal
  deriving DecidableEq

/-- A parsed JSON request body, restricted to the keys the handlers ever
look at or merge.  `none` means the key is absent from the body. -/
structure Body where
  id : Option JsonVal
  title : Option JsonVal
  description : Option JsonVal
  completed : Option JsonVal
  createdAt : Option JsonVal
  deriving DecidableEq

/-- The body with no keys at all. -/
def Body.empty : Body := ⟨none, none, none, none, none⟩

/-- An error thrown by a handler: a message and, for errors built by the
routes, a `statusCode` property (absent on runtime TypeErrors). -/
structure Err where
  message : String
  statusCode : Option Nat
  deriving DecidableEq

/-- Mirrors the `validationError` helper of tasks.js: an error carrying
statusCode 400. -/
def validationError (message : String) : Err := ⟨message, some 400⟩

/-- The 404 error thrown by the GET-by-id, PUT and DELETE handlers. -/
def notFoundError : Err := ⟨"Task not found", some 404⟩

/-- The TypeError raised by the JavaScript runtime when `.trim()` is called
on a non-string value; it has no `statusCode` property.  The message text
stands in for the wording used by the runtime. -/
def typeError (fld : String) : Err := ⟨fld ++ ".trim is not a function", none⟩

/-- Maximum title length, from tasks.js. -/
def MAX_TITLE_LENGTH : Nat := 100

/-- Maximum description length, from tasks.js. -/
def MAX_DESC_LENGTH : Nat := 500

/-- Drops leading whitespace characters from a character list. -/
def dropLeadingWs : List Char → List Char
  | [] => []
  | c :: cs => if c.isWhitespace then dropLeadingWs cs else c :: cs

/-- Model of JavaScript `String.prototype.trim`: removes whitespace from
both ends of the string. -/
def jsTrimString (s : String) : String :=
  String.mk ((dropLeadingWs ((dropLeadingWs s.data).reverse)).reverse)

/-- Model of the expression `x || ""` applied to a possibly-absent body
value: an absent or falsy value becomes the empty string, a truthy value
passes through. -/
def jsOrEmptyStr : Option JsonVal → JsonVal
  | some v => if truthy v then v else .str ""
  | none => .str ""

/-- Model of calling `.trim()` on a JSON value: trims a string, and raises
a TypeError on any non-string (null, number, boolean). -/
def jsTrim (fld : String) : JsonVal → Except Err String
  | .str s => .ok (jsTrimString s)
  | _ => .error (typeError fld)

/-- Model of `===` between a stored JSON value and a path/query string:
true only when the value is the same string. -/
def jsEqStr (v : JsonVal) (s : String) : Bool := decide (v = .str s)

/-- Response of GET /tasks. -/
structure ListResponse where
  success : Bool
  count : Nat
  data : List Task
  deriving DecidableEq

/-- GET /tasks handler: reads the collection and, when the `completed`
query parameter is present, filters by strict equality between the per-task
`completed` field and the boolean `q === "true"`. -/
def getTasks (tasks : List Task) (completed : Option String) : ListResponse :=
  let filtered :=
    match completed with
    | some q => tasks.filter (fun t => decide (t.completed = .bool (q = "true")))
    | none => tasks
  ⟨true, filtered.length, filtered⟩

/-- GET /tasks/:id handler: linear search by id, 404 when absent. -/
def getTaskById (tasks : List Task) (id : String) : Except Err Task :=
  match tasks.find? (fun t => jsEqStr t.id id) with
  | some t => .ok t
  | none => .error notFoundError

/-- POST /tasks handler.  `freshId` stands for the value returned by the
external `uuidv4()` call and `now` for `new Date().toISOString()`.  Returns
the outcome together with the collection as left on disk: the push/write
happens only after all validation has passed. -/
def createTask (tasks : List Task) (body : Body) (freshId now : String) :
    Except Err Task × List Task :=
  match jsTrim "title" (jsOrEmptyStr body.title) with
  | .error e => (.error e, tasks)
  | .ok cleanTitle =>
    match jsTrim "description" (jsOrEmptyStr body.description) with
    | .error e => (.error e, tasks)
    | .ok cleanDesc =>
      if cleanTitle = "" then
        (.error (validationError "Title is required"), tasks)
      else if cleanTitle.length > MAX_TITLE_LENGTH then
        (.error (validationError
          ("Title must be " ++ toString MAX_TITLE_LENGTH ++ " characters or less")), tasks)
      else if cleanDesc.length > MAX_DESC_LENGTH then
        (.error (validationError
          ("Description must be " ++ toString MAX_DESC_LENGTH ++ " characters or less")), tasks)
      else
        let newTask : Task :=
          ⟨.str freshId, .str cleanTitle, .str cleanDesc, .bool false, .str now, none⟩
        (.ok newTask, tasks ++ [newTask])

/-- The title-validation block of the PUT handler: when a title key is
present it is trimmed (TypeError on non-strings), rejected when empty or
over length, and written back cleaned into the body. -/
def processTitle (body : Body) : Except Err Body :=
  match body.title with
  | none => .ok body
  | some v =>
    match jsTrim "title" v with
    | .error e => .error e
    | .ok cleanTitle =>
      if cleanTitle = "" then .error (validationError "Title cannot be empty")
      else if cleanTitle.length > MAX_TITLE_LENGTH then
        .error (validationError
          ("Title must be " ++ toString MAX_TITLE_LENGTH ++ " characters or less"))
      else .ok { body with title := some (.str cleanTitle) }

/-- The description-validation block of the PUT handler: when a description
key is present it is trimmed, rejected when over length, and written back
cleaned into the body. -/
def processDescription (body : Body) : Except Err Body :=
  match body.description with
  | none => .ok body
  | some v =>
    match jsTrim "description" v with
    | .error e => .error e
    | .ok cleanDesc =>
      if cleanDesc.length > MAX_DESC_LENGTH then
        .error (validationError
          ("Description must be " ++ toString MAX_DESC_LENGTH ++ " characters or less"))
      else .ok { body with description := some (.str cleanDesc) }

/-- The spread merge of the PUT handler,
`{...tasks[index], ...req.body, updatedAt: now}`: every key present in the
body overwrites the stored field, and `updatedAt` is always stamped. -/
def mergeBody (t : Task) (b : Body) (now : String) : Task :=
  ⟨b.id.getD t.id, b.title.getD t.title, b.description.getD t.description,
   b.completed.getD t.completed, b.createdAt.getD t.createdAt, some (.str now)⟩

/-- PUT /tasks/:id handler: 404 when the id is not found, then the two
validation blocks, then the merge written at the found index. -/
def updateTask (tasks : List Task) (id : String) (body : Body) (now : String) :
    Except Err Task × List Task :=
  match tasks.findIdx? (fun t => jsEqStr t.id id) with
  | none => (.error notFoundError, tasks)
  | some index =>
    match processTitle body with
    | .error e => (.error e, tasks)
    | .ok body1 =>
      match processDescription body1 with
      | .error e => (.error e, tasks)
      | .ok body2 =>
        match tasks[index]? with
        | none => (.error notFoundError, tasks)
        | some t =>
          let updatedTask := mergeBody t body2 now
          (.ok updatedTask, tasks.set index updatedTask)

/-- DELETE /tasks/:id handler: 404 when the id is not found, otherwise
`splice(index, 1)` removes the entry at the found index and the rest is
written back; the removed task is returned. -/
def deleteTask (tasks : List Task) (id : String) : Except Err Task × List Task :=
  match tasks.findIdx? (fun t => jsEqStr t.id id) with
  | none => (.error notFoundError, tasks)
  | some index =>
    match tasks[index]? with
    | none => (.error notFoundError, tasks)
    | some deleted => (.ok deleted, tasks.eraseIdx index)

/-- The JSON error response produced by the centralized error handler. -/
structure ErrResponse where
  status : Nat
  success : Bool
  message : String
  deriving DecidableEq

/-- The centralized error handler (middleware/errorHandler.js):
`err.statusCode || 500` for the status (so an absent — or zero, by
JavaScript falsiness — code becomes 500) and `err.message || "Something
went wrong!"` for the body message. -/
def errorHandler (e : Err) : ErrResponse :=
  { status :=
      match e.statusCode with
      | some n => if n = 0 then 500 else n
      | none => 500
    success := false
    message := if e.message = "" then "Something went wrong!" else e.message }

/-- Spec-side reading of the query-string conversion: the string "true"
maps to true and any other value to false. -/
def boolOfQuery (s : String) : Bool := decide (s = "true")

/-- Whether `n` is a prefix of `l` (over characters). -/
def listStartsWith : List Char → List Char → Bool
  | [], _ => true
  | _ :: _, [] => false
  | c :: cs, d :: ds => c = d && listStartsWith cs ds

/-- Whether `n` occurs as a contiguous sublist of `l`. -/
def listHasSub (n : List Char) : List Char → Bool
  | [] => listStartsWith n []
  | c :: cs => listStartsWith n (c :: cs) || listHasSub n cs

/-- Whether `needle` occurs inside `hay` (a message "mentions" a string). -/
def occursIn (needle hay : String) : Bool := listHasSub needle.data hay.data

deriving instance DecidableEq for Except

/-- A task used as concrete data in witnesses and counterexamples. -/
def sampleTask : Task :=
  ⟨.str "t1", .str "Buy milk", .str "from the store", .bool false,
   .str "2024-01-01T00:00:00.000Z", none⟩

/-! ### Helper lemmas about the embedded operations -/

theorem jsTrimString_empty : jsTrimString "" = "" := rfl

theorem jsTrim_error_eq (f : String) (v : JsonVal) (e : Err)
    (h : jsTrim f v = .error e) : e = typeError f := by
  cases v <;> simp [jsTrim] at h <;> exact h.symm

theorem jsTrim_orEmpty_str (f s : String) :
    jsTrim f (jsOrEmptyStr (some (.str s))) = .ok (jsTrimString s) := by
  by_cases h : s = ""
  · subst h; simp [jsOrEmptyStr, truthy, jsTrim]
  · simp [jsOrEmptyStr, truthy, jsTrim, h]

theorem jsTrim_orEmpty_none (f : String) :
    jsTrim f (jsOrEmptyStr none) = .ok "" := rfl

/-- Every error produced by POST /tasks leaves the collection untouched and
is either a 400 validation error or a status-less TypeError, always with a
non-empty message. -/
theorem createTask_error_shape (tasks : List Task) (body : Body)
    (freshId now : String) (e : Err) (s' : List Task)
    (h : createTask tasks body freshId now = (.error e, s')) :
    s' = tasks ∧ e.message ≠ "" ∧ (e.statusCode = some 400 ∨ e.statusCode = none) := by
  unfold createTask at h
  split at h
  next e1 he1 =>
    obtain rfl := jsTrim_error_eq _ _ _ he1
    simp only [Prod.mk.injEq, Except.error.injEq] at h
    obtain ⟨rfl, rfl⟩ := h
    refine ⟨rfl, by decide, Or.inr rfl⟩
  next ct hct =>
    split at h
    next e2 he2 =>
      obtain rfl := jsTrim_error_eq _ _ _ he2
      simp only [Prod.mk.injEq, Except.error.injEq] at h
      obtain ⟨rfl, rfl⟩ := h
      refine ⟨rfl, by decide, Or.inr rfl⟩
    next cd hcd =>
      split at h
      · simp only [Prod.mk.injEq, Except.error.injEq] at h
        obtain ⟨rfl, rfl⟩ := h
        exact ⟨rfl, by decide, Or.inl rfl⟩
      · split at h
        · simp only [Prod.mk.injEq, Except.error.injEq] at h
          obtain ⟨rfl, rfl⟩ := h
          exact ⟨rfl, by decide, Or.inl rfl⟩
        · split at h
          · simp only [Prod.mk.injEq, Except.error.injEq] at h
            obtain ⟨rfl, rfl⟩ := h
            exact ⟨rfl, by decide, Or.inl rfl⟩
          · simp at h

theorem processTitle_error_shape (body : Body) (e : Err)
    (h : processTitle body = .error e) :
    e.message ≠ "" ∧ (e.statusCode = some 400 ∨ e.statusCode = none) := by
  unfold processTitle at h
  split at h
  · simp at h
  next v =>
    split at h
    next e1 he1 =>
      obtain rfl : e1 = e := by simpa using h
      obtain rfl := jsTrim_error_eq _ _ _ he1
      exact ⟨by decide, Or.inr rfl⟩
    next ct hct =>
      split at h
      · obtain rfl : validationError "Title cannot be empty" = e := by simpa using h
        exact ⟨by decide, Or.inl rfl⟩
      · split at h
        · obtain rfl :
            validationError ("Title must be " ++ toString MAX_TITLE_LENGTH ++
              " characters or less") = e := by simpa using h
          exact ⟨by decide, Or.inl rfl⟩
        · simp at h

theorem processDescription_error_shape (body : Body) (e : Err)
    (h : processDescription body = .error e) :
    e.message ≠ "" ∧ (e.statusCode = some 400 ∨ e.statusCode = none) := by
  unfold processDescription at h
  split at h
  · simp at h
  next v =>
    split at h
    next e1 he1 =>
      obtain rfl : e1 = e := by simpa using h
      obtain rfl := jsTrim_error_eq _ _ _ he1
      exact ⟨by decide, Or.inr rfl⟩
    next cd hcd =>
      split at h
      · obtain rfl :
          validationError ("Description must be " ++ toString MAX_DESC_LENGTH ++
            " characters or less") = e := by simpa using h
        exact ⟨by decide, Or.inl rfl⟩
      · simp at h

/-- Every error produced by PUT /tasks/:id leaves the collection untouched
and is a 404, a 400 validation error, or a status-less TypeError, always
with a non-empty message. -/
theorem updateTask_error_shape (tasks : List Task) (id : String) (body : Body)
    (now : String) (e : Err) (s' : List Task)
    (h : updateTask tasks id body now = (.error e, s')) :
    s' = tasks ∧ e.message ≠ "" ∧
      (e.statusCode = some 400 ∨ e.statusCode = some 404 ∨ e.statusCode = none) := by
  unfold updateTask at h
  split at h
  · simp only [Prod.mk.injEq, Except.error.injEq] at h
    obtain ⟨rfl, rfl⟩ := h
    exact ⟨rfl, by decide, Or.inr (Or.inl rfl)⟩
  · split at h
    next e1 he1 =>
      obtain ⟨hm, hs⟩ := processTitle_error_shape _ _ he1
      simp only [Prod.mk.injEq, Except.error.injEq] at h
      obtain ⟨rfl, rfl⟩ := h
      exact ⟨rfl, hm, hs.imp (fun h1 => h1) (fun h2 => Or.inr h2)⟩
    next b1 hb1 =>
      split at h
      next e2 he2 =>
        obtain ⟨hm, hs⟩ := processDescription_error_shape _ _ he2
        simp only [Prod.mk.injEq, Except.error.injEq] at h
        obtain ⟨rfl, rfl⟩ := h
        exact ⟨rfl, hm, hs.imp (fun h1 => h1) (fun h2 => Or.inr h2)⟩
      next b2 hb2 =>
        split at h
        · simp only [Prod.mk.injEq, Except.error.injEq] at h
          obtain ⟨rfl, rfl⟩ := h
          exact ⟨rfl, by decide, Or.inr (Or.inl rfl)⟩
        · simp at h

/-- Every error produced by DELETE /tasks/:id is the 404 error and leaves
the collection untouched. -/
theorem deleteTask_error_shape (tasks : List Task) (id : String) (e : Err)
    (s' : List Task) (h : deleteTask tasks id = (.error e, s')) :
    s' = tasks ∧ e = notFoundError := by
  unfold deleteTask at h
  split at h
  · simp only [Prod.mk.injEq, Except.error.injEq] at h
    exact ⟨h.2.symm, h.1.symm⟩
  · split at h
    · simp only [Prod.mk.injEq, Except.error.injEq] at h
      exact ⟨h.2.symm, h.1.symm⟩
    · simp at h

theorem getTaskById_error_shape (tasks : List Task) (id : String) (e : Err)
    (h : getTaskById tasks id = .error e) : e = notFoundError := by
  unfold getTaskById at h
  split at h
  · simp at h
  · simpa using h.symm

/-- On any error whose status code is absent, 400 or 404 and whose message
is non-empty, the centralized handler reproduces code-or-500 and the
message verbatim. -/
theorem errorHandler_faithful (e : Err) (hm : e.message ≠ "")
    (hs : e.statusCode = some 400 ∨ e.statusCode = some 404 ∨ e.statusCode = none) :
    errorHandler e = ⟨e.statusCode.getD 500, false, e.message⟩ := by
  rcases hs with h | h | h <;> simp [errorHandler, h, hm]

/-- The title-validation block keeps every body key other than `title`. -/
theorem processTitle_keeps_fields (body b1 : Body) (h : processTitle body = .ok b1) :
    b1.id = body.id ∧ b1.description = body.description ∧
      b1.completed = body.completed ∧ b1.createdAt = body.createdAt := by
  unfold processTitle at h
  split at h
  · obtain rfl : body = b1 := by simpa using h
    exact ⟨rfl, rfl, rfl, rfl⟩
  · split at h
    · simp at h
    · split at h
      · simp at h
      · split at h
        · simp at h
        · obtain rfl : { body with title := some (.str _) } = b1 := by simpa using h
          exact ⟨rfl, rfl, rfl, rfl⟩

/-- The description-validation block keeps every body key other than
`description`. -/
theorem processDescription_keeps_fields (body b1 : Body)
    (h : processDescription body = .ok b1) :
    b1.id = body.id ∧ b1.title = body.title ∧
      b1.completed = body.completed ∧ b1.createdAt = body.createdAt := by
  unfold processDescription at h
  split at h
  · obtain rfl : body = b1 := by simpa using h
    exact ⟨rfl, rfl, rfl, rfl⟩
  · split at h
    · simp at h
    · split at h
      · simp at h
      · obtain rfl : { body with description := some (.str _) } = b1 := by simpa using h
        exact ⟨rfl, rfl, rfl, rfl⟩

/-- Anatomy of a successful POST /tasks: the cleaned fields passed every
check, the new task is built from them, and it is appended at the end. -/
theorem createTask_ok_shape (tasks : List Task) (body : Body)
    (freshId now : String) (t : Task) (s' : List Task)
    (h : createTask tasks body freshId now = (.ok t, s')) :
    ∃ ct cd, jsTrim "title" (jsOrEmptyStr body.title) = .ok ct ∧
      jsTrim "description" (jsOrEmptyStr body.description) = .ok cd ∧
      ct ≠ "" ∧ ct.length ≤ MAX_TITLE_LENGTH ∧ cd.length ≤ MAX_DESC_LENGTH ∧
      t = ⟨.str freshId, .str ct, .str cd, .bool false, .str now, none⟩ ∧
      s' = tasks ++ [t] := by
  unfold createTask at h
  split at h
  · simp at h
  next ct hct =>
    split at h
    · simp at h
    next cd hcd =>
      split at h
      · simp at h
      next hne =>
        split at h
        · simp at h
        next hlt =>
          split at h
          · simp at h
          next hld =>
            simp only [Prod.mk.injEq, Except.ok.injEq] at h
            obtain ⟨rfl, rfl⟩ := h
            exact ⟨ct, cd, hct, hcd, hne, by omega, by omega, rfl, rfl⟩

/-- Anatomy of a successful PUT /tasks/:id: an index was found, both
validation blocks passed, and the merged task replaces the entry at that
index. -/
theorem updateTask_ok_shape (tasks : List Task) (id : String) (body : Body)
    (now : String) (t : Task) (s' : List Task)
    (h : updateTask tasks id body now = (.ok t, s')) :
    ∃ i old b1 b2, tasks.findIdx? (fun u => jsEqStr u.id id) = some i ∧
      processTitle body = .ok b1 ∧ processDescription b1 = .ok b2 ∧
      tasks[i]? = some old ∧ t = mergeBody old b2 now ∧ s' = tasks.set i t := by
  unfold updateTask at h
  split at h
  · simp at h
  next i hidx =>
    split at h
    · simp at h
    next b1 hb1 =>
      split at h
      · simp at h
      next b2 hb2 =>
        split at h
        · simp at h
        next old hold =>
          simp only [Prod.mk.injEq, Except.ok.injEq] at h
          obtain ⟨rfl, rfl⟩ := h
          exact ⟨i, old, b1, b2, hidx, hb1, hb2, hold, rfl, rfl⟩

/-- C5: for every collection and every List request, a present `completed`
query parameter filters by strict equality against the boolean obtained by
mapping the string "true" to true and anything else to false (membership
characterization included), an absent parameter returns the whole
collection unfiltered, and `count` is the length of the returned data. -/
theorem list_filtering_spec (tasks : List Task) (q : String) :
    ((getTasks tasks (some q)).data =
        tasks.filter (fun t => decide (t.completed = .bool (boolOfQuery q))))
    ∧ (∀ t, t ∈ (getTasks tasks (some q)).data ↔
        t ∈ tasks ∧ t.completed = .bool (boolOfQuery q))
    ∧ (getTasks tasks none).data = tasks
    ∧ (getTasks tasks (some q)).count = (getTasks tasks (some q)).data.length
    ∧ (getTasks tasks none).count = (getTasks tasks none).data.length := by
  refine ⟨rfl, ?_, rfl, rfl, rfl⟩
  intro t
  simp [getTasks, List.mem_filter, boolOfQuery]

/-- C10: a PUT whose body carries a non-string `title` (here null, on an
existing task) and a POST whose body carries a truthy non-string `title`
(here the number 5) both hit `.trim()` on a non-string, producing a
TypeError without a `statusCode`: the centralized handler turns it into a
500 — not a 400 validation error — and the collection is unchanged. -/
theorem nonstring_title_raises_typeerror :
    (updateTask [sampleTask] "t1" ⟨none, some .null, none, none, none⟩ "now"
      = (.error (typeError "title"), [sampleTask]))
    ∧ (createTask [sampleTask] ⟨none, some (.num 5), none, none, none⟩ "f" "now"
      = (.error (typeError "title"), [sampleTask]))
    ∧ (typeError "title").statusCode = none
    ∧ (errorHandler (typeError "title")).status = 500
    ∧ ¬(errorHandler (typeError "title")).status = 400 := by decide

/-- C4: every failure produced by one of the handlers is translated by the
centralized error handler into a response whose status is the
failure statusCode when present and 500 otherwise, with body success false and
exactly the message carried by the failure itself. -/
theorem error_responses_spec (tasks : List Task) (id : String) (body : Body)
    (freshId now : String) (e : Err) :
    (getTaskById tasks id = .error e →
      errorHandler e = ⟨e.statusCode.getD 500, false, e.message⟩)
    ∧ (∀ s', createTask tasks body freshId now = (.error e, s') →
      errorHandler e = ⟨e.statusCode.getD 500, false, e.message⟩)
    ∧ (∀ s', updateTask tasks id body now = (.error e, s') →
      errorHandler e = ⟨e.statusCode.getD 500, false, e.message⟩)
    ∧ (∀ s', deleteTask tasks id = (.error e, s') →
      errorHandler e = ⟨e.statusCode.getD 500, false, e.message⟩) := by
  refine ⟨?_, ?_, ?_, ?_⟩
  · intro h
    obtain rfl := getTaskById_error_shape tasks id e h
    exact errorHandler_faithful _ (by decide) (Or.inr (Or.inl rfl))
  · intro s' h
    obtain ⟨-, hm, hs⟩ := createTask_error_shape tasks body freshId now e s' h
    exact errorHandler_faithful _ hm (hs.imp (fun h1 => h1) (fun h2 => Or.inr h2))
  · intro s' h
    obtain ⟨-, hm, hs⟩ := updateTask_error_shape tasks id body now e s' h
    exact errorHandler_faithful _ hm hs
  · intro s' h
    obtain ⟨-, rfl⟩ := deleteTask_error_shape tasks id e s' h
    exact errorHandler_faithful _ (by decide) (Or.inr (Or.inl rfl))

/-- Witness for C4: the 404 raised by looking up a missing id is rendered
with its own status code and message. -/
theorem error_responses_spec_witness :
    getTaskById [] "ghost" = .error notFoundError ∧
      errorHandler notFoundError = ⟨404, false, "Task not found"⟩ := by
  have h := (error_responses_spec [] "ghost" Body.empty "f" "now" notFoundError).1
  exact ⟨by decide, by simpa [notFoundError] using h (by decide)⟩

/-- Counterexample to C1: on an existing task, a PUT whose body carries
`id` and `createdAt` keys succeeds and stores the values from the body — the
spread merge has no protection for these fields. -/
theorem update_overwrites_id_createdAt_cex :
    updateTask [sampleTask] "t1"
        ⟨some (.str "hacked"), none, none, none, some (.str "1999-01-01")⟩ "2024-06-01"
      = (.ok ⟨.str "hacked", .str "Buy milk", .str "from the store", .bool false,
          .str "1999-01-01", some (.str "2024-06-01")⟩,
         [⟨.str "hacked", .str "Buy milk", .str "from the store", .bool false,
          .str "1999-01-01", some (.str "2024-06-01")⟩])
    ∧ ¬(JsonVal.str "hacked") = sampleTask.id
    ∧ ¬(JsonVal.str "1999-01-01") = sampleTask.createdAt := by decide

/-- C1 (amended): a successful PUT preserves the stored `id` and
`createdAt` only when the patch body does not itself contain an `id` or
`createdAt` key; such keys are merely absent by convention, not
protected. -/
theorem update_preserves_absent_id_createdAt (tasks : List Task) (id : String)
    (body : Body) (now : String) (t : Task) (s' : List Task)
    (hid : body.id = none) (hca : body.createdAt = none)
    (h : updateTask tasks id body now = (.ok t, s')) :
    ∃ i old, tasks.findIdx? (fun u => jsEqStr u.id id) = some i ∧
      tasks[i]? = some old ∧ t.id = old.id ∧ t.createdAt = old.createdAt ∧
      s' = tasks.set i t := by
  obtain ⟨i, old, b1, b2, hidx, hb1, hb2, hold, rfl, rfl⟩ :=
    updateTask_ok_shape tasks id body now t s' h
  obtain ⟨hi1, -, -, hc1⟩ := processTitle_keeps_fields body b1 hb1
  obtain ⟨hi2, -, -, hc2⟩ := processDescription_keeps_fields b1 b2 hb2
  refine ⟨i, old, hidx, hold, ?_, ?_, rfl⟩
  · show (mergeBody old b2 now).id = old.id
    simp [mergeBody, hi2, hi1, hid]
  · show (mergeBody old b2 now).createdAt = old.createdAt
    simp [mergeBody, hc2, hc1, hca]

/-- Witness for the amended C1: a patch without `id`/`createdAt` keys
leaves both stored fields at their pre-update values. -/
theorem update_preserves_absent_id_createdAt_witness :
    ∃ i old, List.findIdx? (fun u => jsEqStr u.id "t1") [sampleTask] = some i ∧
      [sampleTask][i]? = some old ∧
      (⟨.str "t1", .str "New title", .str "from the store", .bool false,
        .str "2024-01-01T00:00:00.000Z", some (.str "now")⟩ : Task).id = old.id ∧
      (⟨.str "t1", .str "New title", .str "from the store", .bool false,
        .str "2024-01-01T00:00:00.000Z", some (.str "now")⟩ : Task).createdAt = old.createdAt ∧
      [⟨.str "t1", .str "New title", .str "from the store", .bool false,
        .str "2024-01-01T00:00:00.000Z", some (.str "now")⟩] =
        [sampleTask].set i ⟨.str "t1", .str "New title", .str "from the store", .bool false,
          .str "2024-01-01T00:00:00.000Z", some (.str "now")⟩ :=
  update_preserves_absent_id_createdAt [sampleTask] "t1"
    ⟨none, some (.str "New title"), none, none, none⟩ "now" _ _ rfl rfl (by decide)

/-- Counterexample to C2: a PUT whose body sets `completed` to the string
"yes" succeeds and stores that non-boolean value in the collection. -/
theorem update_stores_nonboolean_completed_cex :
    updateTask [sampleTask] "t1" ⟨none, none, none, some (.str "yes"), none⟩ "now"
      = (.ok ⟨.str "t1", .str "Buy milk", .str "from the store", .str "yes",
          .str "2024-01-01T00:00:00.000Z", some (.str "now")⟩,
         [⟨.str "t1", .str "Buy milk", .str "from the store", .str "yes",
          .str "2024-01-01T00:00:00.000Z", some (.str "now")⟩])
    ∧ isBool (.str "yes") = false := by decide

/-- C2 (amended): Create always stores a boolean `completed` (false), and
a successful Update preserves the all-`completed`-are-boolean invariant
only when the patch's `completed` key is absent or boolean — the handler
performs no validation of `completed`, so a non-boolean value in the patch
is stored as-is. -/
theorem completed_boolean_invariant_conditional (tasks : List Task) (id : String)
    (body : Body) (freshId now : String) :
    (∀ t s', createTask tasks body freshId now = (.ok t, s') →
      (∀ u ∈ tasks, isBool u.completed = true) →
      ∀ u ∈ s', isBool u.completed = true)
    ∧ (∀ t s', updateTask tasks id body now = (.ok t, s') →
      (∀ u ∈ tasks, isBool u.completed = true) →
      (body.completed = none ∨ ∃ b, body.completed = some (.bool b)) →
      ∀ u ∈ s', isBool u.completed = true) := by
  constructor
  · intro t s' h hinv u hu
    obtain ⟨ct, cd, -, -, -, -, -, rfl, rfl⟩ :=
      createTask_ok_shape tasks body freshId now t s' h
    rcases List.mem_append.1 hu with hu | hu
    · exact hinv u hu
    · obtain rfl : u = ⟨.str freshId, .str ct, .str cd, .bool false, .str now, none⟩ := by
        simpa using hu
      rfl
  · intro t s' h hinv hc u hu
    obtain ⟨i, old, b1, b2, hidx, hb1, hb2, hold, rfl, rfl⟩ :=
      updateTask_ok_shape tasks id body now t s' h
    obtain ⟨-, -, hcm1, -⟩ := processTitle_keeps_fields body b1 hb1
    obtain ⟨-, -, hcm2, -⟩ := processDescription_keeps_fields b1 b2 hb2
    rcases List.mem_or_eq_of_mem_set hu with hu | rfl
    · exact hinv u hu
    · show isBool (mergeBody old b2 now).completed = true
      rcases hc with hc | ⟨b, hc⟩
      · have : b2.completed = none := by rw [hcm2, hcm1, hc]
        simp only [mergeBody, this, Option.getD_none]
        exact hinv old (List.getElem?_mem hold)
      · have : b2.completed = some (.bool b) := by rw [hcm2, hcm1, hc]
        simp [mergeBody, this, isBool]

/-- Witness for the amended C2: flipping `completed` to the boolean true
keeps every stored `completed` a boolean. -/
theorem completed_boolean_invariant_conditional_witness :
    ∀ u ∈ [(⟨.str "t1", .str "Buy milk", .str "from the store", .bool true,
      .str "2024-01-01T00:00:00.000Z", some (.str "now")⟩ : Task)], isBool u.completed = true :=
  (completed_boolean_invariant_conditional [sampleTask] "t1"
      ⟨none, none, none, some (.bool true), none⟩ "f" "now").2
    ⟨.str "t1", .str "Buy milk", .str "from the store", .bool true,
      .str "2024-01-01T00:00:00.000Z", some (.str "now")⟩
    [⟨.str "t1", .str "Buy milk", .str "from the store", .bool true,
      .str "2024-01-01T00:00:00.000Z", some (.str "now")⟩]
    (by decide) (by decide) (Or.inr ⟨true, rfl⟩)

/-- C7: a PUT whose body is exactly the single key `completed:true` keeps
the stored `title` and `description` (and `id` and `createdAt`), sets
`completed` to true and stamps `updatedAt`, and every other entry of the
collection is untouched. -/
theorem partial_update_only_completed (tasks : List Task) (id now : String)
    (t : Task) (s' : List Task)
    (h : updateTask tasks id ⟨none, none, none, some (.bool true), none⟩ now = (.ok t, s')) :
    ∃ i old, tasks.findIdx? (fun u => jsEqStr u.id id) = some i ∧
      tasks[i]? = some old ∧
      t = ⟨old.id, old.title, old.description, .bool true, old.createdAt,
        some (.str now)⟩ ∧
      s' = tasks.set i t ∧ (∀ j, ¬j = i → s'[j]? = tasks[j]?) := by
  obtain ⟨i, old, b1, b2, hidx, hb1, hb2, hold, rfl, rfl⟩ :=
    updateTask_ok_shape tasks id _ now t s' h
  obtain rfl : b1 = ⟨none, none, none, some (.bool true), none⟩ := by
    have := hb1
    unfold processTitle at this
    simpa using this.symm
  obtain rfl : b2 = ⟨none, none, none, some (.bool true), none⟩ := by
    have := hb2
    unfold processDescription at this
    simpa using this.symm
  refine ⟨i, old, hidx, hold, rfl, rfl, ?_⟩
  intro j hj
  exact List.getElem?_set_ne (fun he => hj he.symm)

/-- Witness for C7: a completed-only PUT on a one-task collection. -/
theorem partial_update_only_completed_witness :
    ∃ i old, List.findIdx? (fun u => jsEqStr u.id "t1") [sampleTask] = some i ∧
      [sampleTask][i]? = some old ∧
      (⟨.str "t1", .str "Buy milk", .str "from the store", .bool true,
        .str "2024-01-01T00:00:00.000Z", some (.str "now")⟩ : Task) =
        ⟨old.id, old.title, old.description, .bool true, old.createdAt,
          some (.str "now")⟩ ∧
      [⟨.str "t1", .str "Buy milk", .str "from the store", .bool true,
        .str "2024-01-01T00:00:00.000Z", some (.str "now")⟩] =
        [sampleTask].set i ⟨.str "t1", .str "Buy milk", .str "from the store",
          .bool true, .str "2024-01-01T00:00:00.000Z", some (.str "now")⟩ ∧
      (∀ j, ¬j = i →
        [⟨.str "t1", .str "Buy milk", .str "from the store", .bool true,
          .str "2024-01-01T00:00:00.000Z", some (.str "now")⟩][j]? = [sampleTask][j]?) :=
  partial_update_only_completed [sampleTask] "t1" "now" _ _ (by decide)

/-- C6: on a successful POST, the new task carries the freshly generated
id (a non-empty string not present in the collection — the contract of the
external `uuidv4()` call, taken as hypotheses), `completed` false,
`createdAt` set to now, no `updatedAt`, and is appended at the end of the
collection; moreover an absent `title` or `description` key behaves
exactly like the empty string before validation. -/
theorem create_new_task_spec (tasks : List Task) (body : Body)
    (freshId now : String) :
    (∀ t s', createTask tasks body freshId now = (.ok t, s') →
      ¬freshId = "" → (∀ u ∈ tasks, ¬u.id = .str freshId) →
      t.id = .str freshId ∧ ¬t.id = .str "" ∧ (∀ u ∈ tasks, ¬u.id = t.id) ∧
        t.completed = .bool false ∧ t.createdAt = .str now ∧ t.updatedAt = none ∧
        s' = tasks ++ [t])
    ∧ createTask tasks { body with title := none } freshId now
        = createTask tasks { body with title := some (.str "") } freshId now
    ∧ createTask tasks { body with description := none } freshId now
        = createTask tasks { body with description := some (.str "") } freshId now := by
  refine ⟨?_, ?_, ?_⟩
  · intro t s' h hfresh huniq
    obtain ⟨ct, cd, -, -, -, -, -, rfl, rfl⟩ :=
      createTask_ok_shape tasks body freshId now t s' h
    refine ⟨rfl, ?_, ?_, rfl, rfl, rfl, rfl⟩
    · intro he
      exact hfresh (by simpa using he)
    · intro u hu he
      exact huniq u hu he
  · show createTask tasks ⟨body.id, none, body.description, body.completed, body.createdAt⟩
        freshId now
      = createTask tasks ⟨body.id, some (.str ""), body.description, body.completed,
          body.createdAt⟩ freshId now
    unfold createTask
    rw [show jsTrim "title" (jsOrEmptyStr none) = .ok (jsTrimString "") from rfl,
      jsTrim_orEmpty_str]
  · show createTask tasks ⟨body.id, body.title, none, body.completed, body.createdAt⟩
        freshId now
      = createTask tasks ⟨body.id, body.title, some (.str ""), body.completed,
          body.createdAt⟩ freshId now
    unfold createTask
    rw [show jsTrim "description" (jsOrEmptyStr none) = .ok (jsTrimString "") from rfl,
      jsTrim_orEmpty_str]

/-- Witness for C6: creating a task in a one-task collection with a fresh
id yields the appended task with the created-shape fields. -/
theorem create_new_task_spec_witness :
    (⟨.str "fresh-9", .str "Walk dog", .str "", .bool false, .str "now", none⟩ : Task).id
        = .str "fresh-9"
    ∧ ¬(⟨.str "fresh-9", .str "Walk dog", .str "", .bool false, .str "now", none⟩ : Task).id
        = .str ""
    ∧ (∀ u ∈ [sampleTask],
        ¬u.id = (⟨.str "fresh-9", .str "Walk dog", .str "", .bool false,
          .str "now", none⟩ : Task).id)
    ∧ (⟨.str "fresh-9", .str "Walk dog", .str "", .bool false, .str "now", none⟩ : Task).completed
        = .bool false
    ∧ (⟨.str "fresh-9", .str "Walk dog", .str "", .bool false, .str "now", none⟩ : Task).createdAt
        = .str "now"
    ∧ (⟨.str "fresh-9", .str "Walk dog", .str "", .bool false, .str "now", none⟩ : Task).updatedAt
        = none
    ∧ [sampleTask] ++ [⟨.str "fresh-9", .str "Walk dog", .str "", .bool false,
        .str "now", none⟩]
      = [sampleTask] ++ [⟨.str "fresh-9", .str "Walk dog", .str "", .bool false,
        .str "now", none⟩] :=
  (create_new_task_spec [sampleTask] ⟨none, some (.str "Walk dog"), none, none, none⟩
      "fresh-9" "now").1
    ⟨.str "fresh-9", .str "Walk dog", .str "", .bool false, .str "now", none⟩
    ([sampleTask] ++ [⟨.str "fresh-9", .str "Walk dog", .str "", .bool false,
      .str "now", none⟩])
    (by decide) (by decide) (by decide)

/-- C3: every error outcome of POST or PUT leaves the collection exactly
as it was (the write happens only after all validation), and each of the
three validation failures — empty title, over-long title, over-long
description — produces an error carrying status code 400, rendered as a
400 response. -/
theorem validation_failure_no_side_effect (tasks : List Task) (idStr : String)
    (body : Body) (freshId now : String) :
    (∀ e s', createTask tasks body freshId now = (.error e, s') → s' = tasks)
    ∧ (∀ e s', updateTask tasks idStr body now = (.error e, s') → s' = tasks)
    ∧ (∀ ct cd,
        jsTrim "title" (jsOrEmptyStr body.title) = .ok ct →
        jsTrim "description" (jsOrEmptyStr body.description) = .ok cd →
        (ct = "" ∨ ct.length > MAX_TITLE_LENGTH ∨ cd.length > MAX_DESC_LENGTH) →
        ∃ e, createTask tasks body freshId now = (.error e, tasks) ∧
          e.statusCode = some 400 ∧ (errorHandler e).status = 400)
    ∧ (∀ i, tasks.findIdx? (fun u => jsEqStr u.id idStr) = some i →
        ∀ s, body.title = some (.str s) →
        (jsTrimString s = "" ∨ (jsTrimString s).length > MAX_TITLE_LENGTH) →
        ∃ e, updateTask tasks idStr body now = (.error e, tasks) ∧
          e.statusCode = some 400 ∧ (errorHandler e).status = 400)
    ∧ (∀ i, tasks.findIdx? (fun u => jsEqStr u.id idStr) = some i →
        ∀ b1, processTitle body = .ok b1 →
        ∀ d, body.description = some (.str d) →
        (jsTrimString d).length > MAX_DESC_LENGTH →
        ∃ e, updateTask tasks idStr body now = (.error e, tasks) ∧
          e.statusCode = some 400 ∧ (errorHandler e).status = 400) := by
  refine ⟨?_, ?_, ?_, ?_, ?_⟩
  · intro e s' h
    exact (createTask_error_shape tasks body freshId now e s' h).1
  · intro e s' h
    exact (updateTask_error_shape tasks idStr body now e s' h).1
  · intro ct cd hct hcd hfail
    by_cases h1 : ct = ""
    · exact ⟨validationError "Title is required",
        by simp [createTask, hct, hcd, h1], rfl, by decide⟩
    · by_cases h2 : ct.length > MAX_TITLE_LENGTH
      · exact ⟨validationError
            ("Title must be " ++ toString MAX_TITLE_LENGTH ++ " characters or less"),
          by simp [createTask, hct, hcd, h1, h2], rfl, by decide⟩
      · have h3 : cd.length > MAX_DESC_LENGTH := by tauto
        exact ⟨validationError
            ("Description must be " ++ toString MAX_DESC_LENGTH ++ " characters or less"),
          by simp [createTask, hct, hcd, h1, h2, h3], rfl, by decide⟩
  · intro i hidx s hs hfail
    by_cases h1 : jsTrimString s = ""
    · exact ⟨validationError "Title cannot be empty",
        by simp [updateTask, hidx, processTitle, hs, jsTrim, h1], rfl, by decide⟩
    · have h2 : (jsTrimString s).length > MAX_TITLE_LENGTH := by tauto
      exact ⟨validationError
          ("Title must be " ++ toString MAX_TITLE_LENGTH ++ " characters or less"),
        by simp [updateTask, hidx, processTitle, hs, jsTrim, h1, h2], rfl, by decide⟩
  · intro i hidx b1 hb1 d hd hfail
    have hd1 : b1.description = some (.str d) := by
      rw [(processTitle_keeps_fields body b1 hb1).2.1, hd]
    exact ⟨validationError
        ("Description must be " ++ toString MAX_DESC_LENGTH ++ " characters or less"),
      by simp [updateTask, hidx, hb1, processDescription, hd1, jsTrim, hfail], rfl,
      by decide⟩

/-- Witness for C3: a whitespace-only title is rejected by POST with a 400
and the (empty) collection is unchanged. -/
theorem validation_failure_no_side_effect_witness :
    ∃ e, createTask [] ⟨none, some (.str "   "), none, none, none⟩ "f" "now"
        = (.error e, []) ∧
      e.statusCode = some 400 ∧ (errorHandler e).status = 400 :=
  (validation_failure_no_side_effect [] "x" ⟨none, some (.str "   "), none, none, none⟩
      "f" "now").2.2.1 "" "" (by decide) (by decide) (Or.inl rfl)

/-- A found index is a valid index of the collection. -/
theorem findIdx_some_valid (l : List Task) (p : Task → Bool) (i : Nat)
    (h : l.findIdx? p = some i) : ∃ old, l[i]? = some old := by
  obtain ⟨hlt, -⟩ := List.findIdx?_eq_some_iff_getElem.1 h
  exact ⟨l.get ⟨i, hlt⟩, List.getElem?_eq_getElem hlt⟩

/-- C8: validation boundaries for Create and Update.  A trimmed title of
exactly 100 characters is accepted and one of 101 characters is rejected
with a message mentioning "100"; a trimmed description of exactly 500
characters is accepted and one of 501 characters is rejected with a
message mentioning "500" — on POST (with both keys present) and on PUT
against an existing id (with the single key under test present). -/
theorem validation_boundary_spec (tasks : List Task) (id freshId now ttl dsc : String) :
    ((jsTrimString ttl).length = 100 → (jsTrimString dsc).length ≤ 500 →
      ∃ t s', createTask tasks ⟨none, some (.str ttl), some (.str dsc), none, none⟩
        freshId now = (.ok t, s'))
    ∧ ((jsTrimString ttl).length = 101 →
      ∃ e s', createTask tasks ⟨none, some (.str ttl), some (.str dsc), none, none⟩
        freshId now = (.error e, s') ∧ occursIn "100" e.message = true)
    ∧ (¬jsTrimString ttl = "" → (jsTrimString ttl).length ≤ 100 →
      (jsTrimString dsc).length = 500 →
      ∃ t s', createTask tasks ⟨none, some (.str ttl), some (.str dsc), none, none⟩
        freshId now = (.ok t, s'))
    ∧ (¬jsTrimString ttl = "" → (jsTrimString ttl).length ≤ 100 →
      (jsTrimString dsc).length = 501 →
      ∃ e s', createTask tasks ⟨none, some (.str ttl), some (.str dsc), none, none⟩
        freshId now = (.error e, s') ∧ occursIn "500" e.message = true)
    ∧ (∀ i, tasks.findIdx? (fun u => jsEqStr u.id id) = some i →
      ((jsTrimString ttl).length = 100 →
        ∃ t s', updateTask tasks id ⟨none, some (.str ttl), none, none, none⟩ now
          = (.ok t, s'))
      ∧ ((jsTrimString ttl).length = 101 →
        ∃ e s', updateTask tasks id ⟨none, some (.str ttl), none, none, none⟩ now
          = (.error e, s') ∧ occursIn "100" e.message = true)
      ∧ ((jsTrimString dsc).length = 500 →
        ∃ t s', updateTask tasks id ⟨none, none, some (.str dsc), none, none⟩ now
          = (.ok t, s'))
      ∧ ((jsTrimString dsc).length = 501 →
        ∃ e s', updateTask tasks id ⟨none, none, some (.str dsc), none, none⟩ now
          = (.error e, s') ∧ occursIn "500" e.message = true)) := by
  refine ⟨?_, ?_, ?_, ?_, ?_⟩
  · intro h100 hd
    have hne : ¬jsTrimString ttl = "" := by
      intro hh; rw [hh] at h100; exact absurd h100 (by decide)
    have hnt : ¬(jsTrimString ttl).length > MAX_TITLE_LENGTH := by
      rw [h100]; decide
    have hnd : ¬(jsTrimString dsc).length > MAX_DESC_LENGTH := by
      simp only [MAX_DESC_LENGTH]; omega
    exact ⟨⟨.str freshId, .str (jsTrimString ttl), .str (jsTrimString dsc),
        .bool false, .str now, none⟩,
      tasks ++ [⟨.str freshId, .str (jsTrimString ttl), .str (jsTrimString dsc),
        .bool false, .str now, none⟩],
      by simp [createTask, jsTrim_orEmpty_str, hne, hnt, hnd]⟩
  · intro h101
    have hne : ¬jsTrimString ttl = "" := by
      intro hh; rw [hh] at h101; exact absurd h101 (by decide)
    have ht : (jsTrimString ttl).length > MAX_TITLE_LENGTH := by rw [h101]; decide
    refine ⟨validationError
        ("Title must be " ++ toString MAX_TITLE_LENGTH ++ " characters or less"),
      tasks, by simp [createTask, jsTrim_orEmpty_str, hne, ht], by decide⟩
  · intro hne hle h500
    have hnt : ¬(jsTrimString ttl).length > MAX_TITLE_LENGTH := by
      simp only [MAX_TITLE_LENGTH]; omega
    have hnd : ¬(jsTrimString dsc).length > MAX_DESC_LENGTH := by
      rw [h500]; decide
    exact ⟨⟨.str freshId, .str (jsTrimString ttl), .str (jsTrimString dsc),
        .bool false, .str now, none⟩,
      tasks ++ [⟨.str freshId, .str (jsTrimString ttl), .str (jsTrimString dsc),
        .bool false, .str now, none⟩],
      by simp [createTask, jsTrim_orEmpty_str, hne, hnt, hnd]⟩
  · intro hne hle h501
    have hnt : ¬(jsTrimString ttl).length > MAX_TITLE_LENGTH := by
      simp only [MAX_TITLE_LENGTH]; omega
    have hd : (jsTrimString dsc).length > MAX_DESC_LENGTH := by rw [h501]; decide
    refine ⟨validationError
        ("Description must be " ++ toString MAX_DESC_LENGTH ++ " characters or less"),
      tasks, by simp [createTask, jsTrim_orEmpty_str, hne, hnt, hd], by decide⟩
  · intro i hidx
    refine ⟨?_, ?_, ?_, ?_⟩
    · intro h100
      have hne : ¬jsTrimString ttl = "" := by
        intro hh; rw [hh] at h100; exact absurd h100 (by decide)
      have hnt : ¬(jsTrimString ttl).length > MAX_TITLE_LENGTH := by
        rw [h100]; decide
      obtain ⟨old, hold⟩ := findIdx_some_valid tasks _ i hidx
      exact ⟨mergeBody old ⟨none, some (.str (jsTrimString ttl)), none, none, none⟩ now,
        tasks.set i
          (mergeBody old ⟨none, some (.str (jsTrimString ttl)), none, none, none⟩ now),
        by simp [updateTask, hidx, processTitle, processDescription, jsTrim, hne, hnt, hold]⟩
    · intro h101
      have hne : ¬jsTrimString ttl = "" := by
        intro hh; rw [hh] at h101; exact absurd h101 (by decide)
      have ht : (jsTrimString ttl).length > MAX_TITLE_LENGTH := by rw [h101]; decide
      refine ⟨validationError
          ("Title must be " ++ toString MAX_TITLE_LENGTH ++ " characters or less"),
        tasks, by simp [updateTask, hidx, processTitle, jsTrim, hne, ht], by decide⟩
    · intro h500
      have hnd : ¬(jsTrimString dsc).length > MAX_DESC_LENGTH := by
        rw [h500]; decide
      obtain ⟨old, hold⟩ := findIdx_some_valid tasks _ i hidx
      exact ⟨mergeBody old ⟨none, none, some (.str (jsTrimString dsc)), none, none⟩ now,
        tasks.set i
          (mergeBody old ⟨none, none, some (.str (jsTrimString dsc)), none, none⟩ now),
        by simp [updateTask, hidx, processTitle, processDescription, jsTrim, hnd, hold]⟩
    · intro h501
      have hd : (jsTrimString dsc).length > MAX_DESC_LENGTH := by rw [h501]; decide
      refine ⟨validationError
          ("Description must be " ++ toString MAX_DESC_LENGTH ++ " characters or less"),
        tasks, by simp [updateTask, hidx, processTitle, processDescription, jsTrim, hd],
        by decide⟩

set_option maxRecDepth 40000 in
/-- Witness for C8: a 101-character title is rejected by POST with a
message mentioning "100", and a 501-character description is rejected by
PUT on an existing task with a message mentioning "500". -/
theorem validation_boundary_spec_witness :
    (∃ e s', createTask []
        ⟨none, some (.str (String.mk (List.replicate 101 'a'))), some (.str ""),
          none, none⟩ "f" "now" = (.error e, s') ∧ occursIn "100" e.message = true)
    ∧ (∃ e s', updateTask [sampleTask] "t1"
        ⟨none, none, some (.str (String.mk (List.replicate 501 'b'))), none, none⟩
        "now" = (.error e, s') ∧ occursIn "500" e.message = true) := by
  constructor
  · exact (validation_boundary_spec [] "x" "f" "now"
      (String.mk (List.replicate 101 'a')) "").2.1 (by decide)
  · exact ((validation_boundary_spec [sampleTask] "t1" "f" "now" ""
      (String.mk (List.replicate 501 'b'))).2.2.2.2 0 (by decide)).2.2.2 (by decide)

/-- A successful DELETE removed exactly the first entry matching the id,
keeping every other entry in order. -/
theorem deleteTask_ok_decomp (tasks : List Task) (id : String) (t : Task)
    (s' : List Task) (h : deleteTask tasks id = (.ok t, s')) :
    jsEqStr t.id id = true ∧
      ∃ pre post, tasks = pre ++ t :: post ∧ s' = pre ++ post ∧
        (∀ u ∈ pre, jsEqStr u.id id = false) := by
  unfold deleteTask at h
  split at h
  · simp at h
  next i hidx =>
    split at h
    · simp at h
    next deleted hold =>
      simp only [Prod.mk.injEq, Except.ok.injEq] at h
      obtain ⟨rfl, rfl⟩ := h
      obtain ⟨hlt, hp, hprev⟩ := List.findIdx?_eq_some_iff_getElem.1 hidx
      obtain rfl : deleted = tasks[i] := by
        rw [List.getElem?_eq_getElem hlt] at hold
        simpa using hold.symm
      refine ⟨hp, tasks.take i, tasks.drop (i + 1), ?_, ?_, ?_⟩
      · calc tasks = tasks.take i ++ tasks.drop i := (List.take_append_drop i tasks).symm
          _ = tasks.take i ++ tasks[i] :: tasks.drop (i + 1) := by
              rw [List.getElem_cons_drop tasks i hlt]
      · exact List.eraseIdx_eq_take_drop_succ tasks i
      · intro u hu
        rw [List.mem_take_iff_getElem] at hu
        obtain ⟨j, hm, rfl⟩ := hu
        simpa using hprev j (by omega)

/-- C9: DELETE of an id no task carries fails with the 404 error and
leaves the collection unchanged; a successful DELETE removes exactly the
first entry with that id, preserving the order of all other entries, and
returns the removed task; and — when ids are unique, at most one entry
matching — a subsequent GET by that id on the resulting collection answers
404. -/
theorem delete_then_get_spec (tasks : List Task) (id : String) :
    ((∀ u ∈ tasks, jsEqStr u.id id = false) →
      deleteTask tasks id = (.error notFoundError, tasks))
    ∧ (∀ t s', deleteTask tasks id = (.ok t, s') →
        jsEqStr t.id id = true ∧
          ∃ pre post, tasks = pre ++ t :: post ∧ s' = pre ++ post ∧
            (∀ u ∈ pre, jsEqStr u.id id = false))
    ∧ (∀ t s', (tasks.filter (fun u => jsEqStr u.id id)).length ≤ 1 →
        deleteTask tasks id = (.ok t, s') →
        getTaskById s' id = .error notFoundError) := by
  refine ⟨?_, ?_, ?_⟩
  · intro hnone
    have hidx : tasks.findIdx? (fun u => jsEqStr u.id id) = none :=
      List.findIdx?_eq_none_iff.2 hnone
    simp [deleteTask, hidx]
  · intro t s' h
    exact deleteTask_ok_decomp tasks id t s' h
  · intro t s' hfilter h
    obtain ⟨hp, pre, post, rfl, rfl, hpre⟩ := deleteTask_ok_decomp _ id t s' h
    have hfpre : pre.filter (fun u => jsEqStr u.id id) = [] := by
      rw [List.filter_eq_nil_iff]
      intro u hu
      simp [hpre u hu]
    rw [List.filter_append, hfpre] at hfilter
    simp only [List.filter_cons, hp, if_true, List.nil_append] at hfilter
    have hpost : ∀ u ∈ post, jsEqStr u.id id = false := by
      have : post.filter (fun u => jsEqStr u.id id) = [] := by
        have := hfilter
        simp only [List.nil_append, List.length_cons] at this
        exact List.length_eq_zero.1 (by omega)
      intro u hu
      have := (List.filter_eq_nil_iff.1 this) u hu
      simpa using this
    have hfind : (pre ++ post).find? (fun u => jsEqStr u.id id) = none := by
      rw [List.find?_eq_none]
      intro x hx
      rcases List.mem_append.1 hx with hx | hx
      · simp [hpre x hx]
      · simp [hpost x hx]
    simp [getTaskById, hfind]

/-- Witness for C9: deleting the only task of a one-task collection
succeeds, empties the collection, and the follow-up GET answers 404. -/
theorem delete_then_get_spec_witness :
    (deleteTask [sampleTask] "ghost" = (.error notFoundError, [sampleTask]))
    ∧ (jsEqStr sampleTask.id "t1" = true ∧
        ∃ pre post, [sampleTask] = pre ++ sampleTask :: post ∧ [] = pre ++ post ∧
          (∀ u ∈ pre, jsEqStr u.id "t1" = false))
    ∧ getTaskById [] "t1" = .error notFoundError := by
  refine ⟨?_, ?_, ?_⟩
  · exact (delete_then_get_spec [sampleTask] "ghost").1 (by decide)
  · exact (delete_then_get_spec [sampleTask] "t1").2.1 sampleTask [] (by decide)
  · exact (delete_then_get_spec [sampleTask] "t1").2.2 sampleTask [] (by decide) (by decide)

end TaskManager
